import Mathlib

/-!
# Verification of the ETL pipeline in `sistema_sgbd_completo.py`

A shallow embedding of the transform-and-validate pipeline of the
ERP-database ETL script: Python scalar coercion (`_safe_convert_to_int`,
`_safe_convert_to_float`), the primary-key set builder
(`get_valid_pk_set`), the foreign-key resolvers (`clean_foreign_key`,
`_tratamento_fk_com_default`), the five per-row entity transformers
inside `main_etl`, and the orchestration of `main_etl` itself.

Modelling conventions:
* Python `str` values flowing in from `csv.reader` are Lean `String`s;
  an argument that may be Python `None` is an `Option String`.
* Python `float` is modelled by `PyFloat`: an exact rational for finite
  values (we do not model IEEE-754 rounding of finite values; every
  string literal appearing in the program and the spec is exactly
  representable at the precision the claims use), plus `inf`, `negInf`
  and `nan`.  Conversion of a decimal string whose magnitude reaches the
  double overflow threshold yields `inf`/`negInf`, as CPython's
  `float(str)` does.
* Python exceptions are modelled by `Except PyExc`; `try/except` blocks
  are explicit matches on the caught constructors, so an exception that
  the source does not catch propagates in the model exactly as it would
  at runtime.
* Python truthiness (`if pk_int:`, `x or y`) is modelled literally:
  `None`, `0`, `0.0` and `""` are falsy, everything else (including
  negative integers and `nan`) is truthy.
-/

set_option maxRecDepth 16384
set_option exponentiation.threshold 2048

deriving instance DecidableEq for Except

namespace EtlSgbd

/-- Python exceptions that the source program can raise or catch. -/
inductive PyExc
  | valueError
  | typeError
  | overflowError
  | indexError
deriving DecidableEq, Repr

/-- A CPython `float` value: finite values are kept as exact rationals;
the special values `inf`, `-inf` and `nan` are explicit constructors. -/
inductive PyFloat
  | finite (q : ℚ)
  | inf
  | negInf
  | nan
deriving DecidableEq, Repr

/-- ASCII whitespace stripped by CPython around a `float()` literal. -/
def isPySpace (c : Char) : Bool :=
  c = ' ' || c = '\t' || c = '\n' || c = '\r' || c = '\x0b' || c = '\x0c'

/-- Strip leading and trailing whitespace from a character list. -/
def stripSpaces (cs : List Char) : List Char :=
  ((cs.dropWhile isPySpace).reverse.dropWhile isPySpace).reverse

/-- Consume an optional leading sign; return (isNegative, rest). -/
def splitSign : List Char → Bool × List Char
  | '-' :: r => (true, r)
  | '+' :: r => (false, r)
  | r => (false, r)

/-- Numeric value of a digit list, most significant digit first. -/
def digitsToNat (cs : List Char) : ℕ :=
  cs.foldl (fun a c => 10 * a + (c.toNat - '0'.toNat)) 0

/-- The rational `m * 10 ^ shift` for a signed mantissa `m` and a signed
power-of-ten `shift`, built with `mkRat` and `Nat`/`Int` arithmetic only
(the generic `ℚ` operations are `@[irreducible]` and would block
evaluation inside the kernel). -/
def decimalValue (m : ℤ) (shift : ℤ) : ℚ :=
  if 0 ≤ shift then mkRat (m * ((10 ^ shift.toNat : ℕ) : ℤ)) 1
  else mkRat m (10 ^ (-shift).toNat)

/-- Parse a signed decimal literal `digits[.digits][(e|E)[sign]digits]`
(at least one digit in the integer or fractional part, nothing left
over), returning its exact rational value; `neg` is the sign consumed
before the digits. -/
def parseDecimal (neg : Bool) (cs : List Char) : Option ℚ :=
  let ip := cs.takeWhile Char.isDigit
  let r1 := cs.dropWhile Char.isDigit
  let fp := match r1 with
    | '.' :: t => t.takeWhile Char.isDigit
    | _ => []
  let r2 := match r1 with
    | '.' :: t => t.dropWhile Char.isDigit
    | _ => r1
  if ip.isEmpty && fp.isEmpty then none
  else
    let m : ℕ := digitsToNat ip * 10 ^ fp.length + digitsToNat fp
    let sm : ℤ := if neg then -(m : ℤ) else (m : ℤ)
    match r2 with
    | [] => some (decimalValue sm (-(fp.length : ℤ)))
    | e :: t =>
      if e = 'e' || e = 'E' then
        let s := splitSign t
        let ed := s.2.takeWhile Char.isDigit
        let r3 := s.2.dropWhile Char.isDigit
        if ed.isEmpty || !r3.isEmpty then none
        else
          let ev : ℤ := if s.1 then -(digitsToNat ed : ℤ) else (digitsToNat ed : ℤ)
          some (decimalValue sm (ev - (fp.length : ℤ)))
      else none

/-- Numerator of the smallest magnitude at which CPython's
string-to-double conversion rounds to infinity
(`2^1024 - 2^970`, the rounding midpoint above `DBL_MAX`). -/
def overflowNum : ℤ := ((2 ^ 1024 - 2 ^ 970 : ℕ) : ℤ)

/-- CPython `float(str)`: optional surrounding whitespace, optional sign,
then a decimal literal or one of `inf`/`infinity`/`nan`
(case-insensitive).  Returns `none` where CPython raises `ValueError`.
(Digit-group underscores, accepted since Python 3.6, are not modelled;
no input of this program nor of the spec's examples contains them.) -/
def pyParseFloat (s : String) : Option PyFloat :=
  let cs := stripSpaces s.data
  let sg := splitSign cs
  let low := (sg.2.map Char.toLower).asString
  if low = "inf" || low = "infinity" then some (if sg.1 then .negInf else .inf)
  else if low = "nan" then some .nan
  else match parseDecimal sg.1 sg.2 with
    | none => none
    | some q =>
      if mkRat overflowNum 1 ≤ q then some .inf
      else if q ≤ mkRat (-overflowNum) 1 then some .negInf
      else some (.finite q)

/-- CPython `float(str)` in the exception monad: raises `ValueError` on
an unparseable literal. -/
def pyFloatOfString (s : String) : Except PyExc PyFloat :=
  match pyParseFloat s with
  | some f => .ok f
  | none => .error .valueError

/-- Truncation toward zero, the rounding of CPython `int(float)`:
`Int.tdiv` is truncated division and `q.den` is positive. -/
def ratTruncate (q : ℚ) : ℤ :=
  q.num.tdiv q.den

/-- CPython `int(x)` for a float `x`: truncates a finite value, raises
`OverflowError` on `±inf` and `ValueError` on `nan`. -/
def pyIntOfFloat : PyFloat → Except PyExc ℤ
  | .finite q => .ok (ratTruncate q)
  | .inf => .error .overflowError
  | .negInf => .error .overflowError
  | .nan => .error .valueError

/-- Python truthiness of a `str`-or-`None` value: `None` and `""` are
falsy. -/
def pyStrTruthy : Option String → Bool
  | none => false
  | some s => !s.isEmpty

/-- `value_str.replace(',', '')`: remove every comma. -/
def removeCommas (s : String) : String :=
  (s.data.filter (fun c => c ≠ ',')).asString

/-- Body of the `try` block of `_safe_convert_to_int`:
`int(float(cleaned_str))` for an already comma-cleaned string. -/
def intOfCleaned (cleaned : String) : Except PyExc ℤ :=
  match pyFloatOfString cleaned with
  | .error e => .error e
  | .ok f => pyIntOfFloat f

/-- `_safe_convert_to_int` with its exception behaviour explicit: the
`except (ValueError, TypeError, OverflowError)` clause maps exactly
those three exceptions to `None`; anything else would propagate. -/
def safe_convert_to_intE (value_str : Option String) : Except PyExc (Option ℤ) :=
  if pyStrTruthy value_str then
    match intOfCleaned (removeCommas (value_str.getD "")) with
    | .ok n => .ok (some n)
    | .error .valueError => .ok none
    | .error .typeError => .ok none
    | .error .overflowError => .ok none
    | .error e => .error e
  else .ok none

/-- `_safe_convert_to_int` as the value-level function: `None`/empty or
unparseable input gives `none`, otherwise the truncated integer. -/
def safe_convert_to_int (value_str : Option String) : Option ℤ :=
  if pyStrTruthy value_str then
    match intOfCleaned (removeCommas (value_str.getD "")) with
    | .ok n => some n
    | .error _ => none
  else none

/-- `_safe_convert_to_float` with its exception behaviour explicit: the
`except (ValueError, TypeError)` clause maps exactly those two
exceptions to `None`. -/
def safe_convert_to_floatE (value_str : Option String) : Except PyExc (Option PyFloat) :=
  if pyStrTruthy value_str then
    match pyFloatOfString (removeCommas (value_str.getD "")) with
    | .ok f => .ok (some f)
    | .error .valueError => .ok none
    | .error .typeError => .ok none
    | .error e => .error e
  else .ok none

/-- `_safe_convert_to_float` as the value-level function. -/
def safe_convert_to_float (value_str : Option String) : Option PyFloat :=
  if pyStrTruthy value_str then
    match pyFloatOfString (removeCommas (value_str.getD "")) with
    | .ok f => some f
    | .error _ => none
  else none

example : safe_convert_to_int (some "553,465") = some 553465 := by decide
example : safe_convert_to_int (some "4.0") = some 4 := by decide
example : safe_convert_to_int (some "abc") = none := by decide
example : safe_convert_to_int (some "") = none := by decide
example : safe_convert_to_int (some "-1") = some (-1) := by decide
example : safe_convert_to_float (some "1,234.50") = some (.finite (mkRat 2469 2)) := by decide
example : safe_convert_to_float none = none := by decide

/-- `clean_foreign_key(fk_string, valid_pk_set, default=0)`.  The return
type mirrors the source's `Optional[int]` annotation; the source body in
fact returns `0` — not `default` and not `None` — on every invalid
branch. -/
def clean_foreign_key (fk_string : Option String) (valid_pk_set : Finset ℤ)
    (default : ℤ) : Option ℤ :=
  match safe_convert_to_int fk_string with
  | none => some 0
  | some fk_int =>
    if fk_int = 0 then some 0
    else if fk_int ∉ valid_pk_set then some 0
    else some fk_int

/-- The integer value `clean_foreign_key` actually returns (it never
returns `None`); this is the value the row transformers consume. -/
def cleanForeignKeyVal (fk_string : Option String) (valid_pk_set : Finset ℤ) : ℤ :=
  (clean_foreign_key fk_string valid_pk_set 0).getD 0

/-- `_tratamento_fk_com_default(fk_string, valid_pk_set, valor_default=0)`:
same validation as `clean_foreign_key` but the invalid branches return
`valor_default`. -/
def tratamento_fk_com_default (fk_string : Option String) (valid_pk_set : Finset ℤ)
    (valor_default : ℤ) : ℤ :=
  match safe_convert_to_int fk_string with
  | none => valor_default
  | some fk_int =>
    if fk_int = 0 then valor_default
    else if fk_int ∉ valid_pk_set then valor_default
    else fk_int

/-- Python `row[i]` on a list: the element, or `IndexError` out of
bounds. -/
def pyIndex (row : List String) (i : ℕ) : Except PyExc String :=
  match row[i]? with
  | some v => .ok v
  | none => .error .indexError

/-- Loop body of `get_valid_pk_set`: for a non-empty `row`, coerce
`row[pk_column_index]` and add the result to the set when it is truthy
(`if pk_int:` — not `None` and not `0`). -/
def pkStep (pk_column_index : ℕ) (valid_ids : Finset ℤ) (row : List String) :
    Except PyExc (Finset ℤ) :=
  if row.isEmpty then pure valid_ids
  else do
    let s ← pyIndex row pk_column_index
    let pk_int ← safe_convert_to_intE (some s)
    match pk_int with
    | some n => if n ≠ 0 then pure (insert n valid_ids) else pure valid_ids
    | none => pure valid_ids

/-- `get_valid_pk_set(data, pk_column_index)`: fold `pkStep` over the
rows starting from the empty set; an exception raised by the body
propagates out of the loop. -/
def get_valid_pk_setE (data : List (List String)) (pk_column_index : ℕ) :
    Except PyExc (Finset ℤ) :=
  data.foldlM (pkStep pk_column_index) ∅

example : get_valid_pk_setE [["10", "x"], [], ["0"], ["7"]] 0 = .ok {7, 10} := by decide
example : clean_foreign_key (some "5") {1, 2, 3} 0 = some 0 := by decide
example : clean_foreign_key (some "2") {1, 2, 3} 7 = some 2 := by decide

/-- A Python value sitting in one position of a cleaned row tuple. -/
inductive PyVal
  | pyNone
  | int (n : ℤ)
  | float (f : PyFloat)
  | str (s : String)
deriving DecidableEq, Repr

/-- Python truthiness of a float: `0.0` is falsy, everything else
(including `nan` and the infinities) is truthy. -/
def pyFloatTruthy : PyFloat → Bool
  | .finite q => q ≠ 0
  | _ => true

/-- Python `s or None` for a `str` value `s`. -/
def strOrNone (s : String) : PyVal :=
  if s.isEmpty then .pyNone else .str s

/-- Python `s or lit` for `str` values `s` and `lit`. -/
def strOrLit (s lit : String) : PyVal :=
  if s.isEmpty then .str lit else .str s

/-- An `Optional[int]` placed directly into the output tuple. -/
def ofOptInt : Option ℤ → PyVal
  | some n => .int n
  | none => .pyNone

/-- An `Optional[float]` placed directly into the output tuple. -/
def ofOptFloat : Option PyFloat → PyVal
  | some f => .float f
  | none => .pyNone

/-- Python `v or lit` where `v : Optional[float]` and `lit : str`:
the literal replaces `None` and the falsy float `0.0`. -/
def optFloatOrStr (v : Option PyFloat) (lit : String) : PyVal :=
  match v with
  | some f => if pyFloatTruthy f then .float f else .str lit
  | none => .str lit

/-- Python `v or d` where `v : Optional[int]` and `d : int`. -/
def optIntOrZ (v : Option ℤ) (d : ℤ) : ℤ :=
  match v with
  | some n => if n = 0 then d else n
  | none => d

/-- Python `v or d` where `v : Optional[float]` and `d : float`. -/
def optFloatOrF (v : Option PyFloat) (d : PyFloat) : PyFloat :=
  match v with
  | some f => if pyFloatTruthy f then f else d
  | none => d

/-- Python `n or d` for `int` values. -/
def intOrZ (n d : ℤ) : ℤ :=
  if n = 0 then d else n

/-- `_safe_convert_to_int(row[5]) if _safe_convert_to_int(row[5]) in [1, 2]
else 1` — the FINALIDNFE column of the PEDIDOS transform. -/
def finalidnfeVal (v : Option ℤ) : PyVal :=
  if v = some 1 ∨ v = some 2 then .int (v.getD 1) else .int 1

/-- The REPRES loop body of `main_etl` (columns CODREPRES, TIPOPESS,
NOMEFAN, COMISSAOBASE), with each column evaluated in source order and
any exception propagating. -/
def transformRepres (row : List String) : Except PyExc (List PyVal) := do
  let c0 ← pyIndex row 0
  let v0 ← safe_convert_to_intE (some c0)
  let c1 ← pyIndex row 1
  let c2 ← pyIndex row 2
  let c3 ← pyIndex row 3
  let v3 ← safe_convert_to_floatE (some c3)
  pure [ofOptInt v0, strOrNone c1, strOrNone c2, ofOptFloat v3]

/-- The FORNCLIEN loop body of `main_etl` (CODCLIFOR, TIPOCF, CODREPRES
as FK, NOMEFAN, CIDADE, UF, CODMUNICIPIO, TIPOPESSOA, COBRBANC,
PRAZOPGTO). -/
def transformFornclien (valid_repres_ids : Finset ℤ) (row : List String) :
    Except PyExc (List PyVal) := do
  let c0 ← pyIndex row 0
  let v0 ← safe_convert_to_intE (some c0)
  let c1 ← pyIndex row 1
  let v1 ← safe_convert_to_intE (some c1)
  let c2 ← pyIndex row 2
  let c3 ← pyIndex row 3
  let c4 ← pyIndex row 4
  let c5 ← pyIndex row 5
  let c6 ← pyIndex row 6
  let v6 ← safe_convert_to_floatE (some c6)
  let c7 ← pyIndex row 7
  let v7 ← safe_convert_to_intE (some c7)
  let c8 ← pyIndex row 8
  let v8 ← safe_convert_to_intE (some c8)
  let c9 ← pyIndex row 9
  let v9 ← safe_convert_to_floatE (some c9)
  pure [ofOptInt v0, ofOptInt v1, .int (cleanForeignKeyVal (some c2) valid_repres_ids),
        strOrLit c3 "Não Informado", strOrLit c4 "Não Informado", strOrLit c5 "ND",
        optFloatOrStr v6 "Não Informado", ofOptInt v7, ofOptInt v8,
        optFloatOrStr v9 "Não Informado"]

/-- The PRODUTOS loop body of `main_etl` (CODPROD, NOMEPROD, CODFORNE as
FK, UNIDADE, ALIQICMS, VALCUSTO, VALVENDA, QTDEMIN, QTDEESTQ, GRUPO,
CLASSESTQ, COMISSAO, PESOBRUTO). -/
def transformProdutos (valid_fornclien_ids : Finset ℤ) (row : List String) :
    Except PyExc (List PyVal) := do
  let c0 ← pyIndex row 0
  let v0 ← safe_convert_to_intE (some c0)
  let c1 ← pyIndex row 1
  let c2 ← pyIndex row 2
  let c3 ← pyIndex row 3
  let v3 ← safe_convert_to_intE (some c3)
  let c4 ← pyIndex row 4
  let v4 ← safe_convert_to_floatE (some c4)
  let c5 ← pyIndex row 5
  let v5 ← safe_convert_to_floatE (some c5)
  let c6 ← pyIndex row 6
  let v6 ← safe_convert_to_floatE (some c6)
  let c7 ← pyIndex row 7
  let v7 ← safe_convert_to_floatE (some c7)
  let c8 ← pyIndex row 8
  let v8 ← safe_convert_to_floatE (some c8)
  let c9 ← pyIndex row 9
  let v9 ← safe_convert_to_intE (some c9)
  let c10 ← pyIndex row 10
  let c11 ← pyIndex row 11
  let v11 ← safe_convert_to_floatE (some c11)
  let c12 ← pyIndex row 12
  let v12 ← safe_convert_to_floatE (some c12)
  pure [ofOptInt v0, strOrNone c1, .int (cleanForeignKeyVal (some c2) valid_fornclien_ids),
        ofOptInt v3, optFloatOrStr v4 "Não Informado", optFloatOrStr v5 "Não Informado",
        optFloatOrStr v6 "Não Informado", optFloatOrStr v7 "Não Informado",
        optFloatOrStr v8 "Não Informado", ofOptInt v9, strOrLit c10 "0",
        optFloatOrStr v11 "Não Informado", optFloatOrStr v12 "Não Informado"]

/-- The PEDIDOS loop body of `main_etl` (NUMPED, DATAPPED, HORAPPED,
CODCLIEN as FK, ES, FINALIDNFE, SITUACAO, PESO, PRAZOPGTO, VALORPRODS,
VALORDESC, VALOR, VALBASEICMS, VALICMS, COMISSAO). -/
def transformPedidos (valid_fornclien_ids : Finset ℤ) (row : List String) :
    Except PyExc (List PyVal) := do
  let c0 ← pyIndex row 0
  let v0 ← safe_convert_to_intE (some c0)
  let c1 ← pyIndex row 1
  let c2 ← pyIndex row 2
  let c3 ← pyIndex row 3
  let c4 ← pyIndex row 4
  let c5 ← pyIndex row 5
  let v5 ← safe_convert_to_intE (some c5)
  let c6 ← pyIndex row 6
  let v6 ← safe_convert_to_intE (some c6)
  let c7 ← pyIndex row 7
  let v7 ← safe_convert_to_floatE (some c7)
  let c8 ← pyIndex row 8
  let v8 ← safe_convert_to_intE (some c8)
  let c9 ← pyIndex row 9
  let v9 ← safe_convert_to_floatE (some c9)
  let c10 ← pyIndex row 10
  let v10 ← safe_convert_to_floatE (some c10)
  let c11 ← pyIndex row 11
  let v11 ← safe_convert_to_floatE (some c11)
  let c12 ← pyIndex row 12
  let v12 ← safe_convert_to_floatE (some c12)
  let c13 ← pyIndex row 13
  let v13 ← safe_convert_to_floatE (some c13)
  let c14 ← pyIndex row 14
  let v14 ← safe_convert_to_floatE (some c14)
  pure [.int (optIntOrZ v0 0), strOrNone c1, strOrNone c2,
        .int (intOrZ (cleanForeignKeyVal (some c3) valid_fornclien_ids) 0),
        strOrNone c4, finalidnfeVal v5, .int (optIntOrZ v6 2),
        .float (optFloatOrF v7 (.finite 0)), .int (optIntOrZ v8 0),
        .float (optFloatOrF v9 (.finite 0)), .float (optFloatOrF v10 (.finite 0)),
        .float (optFloatOrF v11 (.finite 0)), .float (optFloatOrF v12 (.finite 0)),
        .float (optFloatOrF v13 (.finite 0)), .float (optFloatOrF v14 (.finite 0))]

/-- The PEDIDOSITEM loop body of `main_etl` (NUMPED as FK, NUMITEM,
CODPROD as FK, QTDE, VALUNIT, UNID, ALIQICMS, COMISSAO, STICMS, CFOP,
REDUCBASEICMS). -/
def transformPedidositem (valid_pedidos_ids valid_produtos_ids : Finset ℤ)
    (row : List String) : Except PyExc (List PyVal) := do
  let c0 ← pyIndex row 0
  let c1 ← pyIndex row 1
  let v1 ← safe_convert_to_intE (some c1)
  let c2 ← pyIndex row 2
  let c3 ← pyIndex row 3
  let v3 ← safe_convert_to_floatE (some c3)
  let c4 ← pyIndex row 4
  let v4 ← safe_convert_to_floatE (some c4)
  let c5 ← pyIndex row 5
  let c6 ← pyIndex row 6
  let v6 ← safe_convert_to_floatE (some c6)
  let c7 ← pyIndex row 7
  let v7 ← safe_convert_to_floatE (some c7)
  let c8 ← pyIndex row 8
  let v8 ← safe_convert_to_intE (some c8)
  let c9 ← pyIndex row 9
  let v9 ← safe_convert_to_floatE (some c9)
  let c10 ← pyIndex row 10
  let v10 ← safe_convert_to_floatE (some c10)
  pure [.int (cleanForeignKeyVal (some c0) valid_pedidos_ids), ofOptInt v1,
        .int (cleanForeignKeyVal (some c2) valid_produtos_ids),
        ofOptFloat v3, ofOptFloat v4, strOrLit c5 "UN", ofOptFloat v6,
        ofOptFloat v7, ofOptInt v8, optFloatOrStr v9 "5102", ofOptFloat v10]

example : transformRepres ["10", "PF", "Acme", "5.5"] =
    .ok [.int 10, .str "PF", .str "Acme", .float (.finite (mkRat 11 2))] := by decide
example : transformRepres [] = .error .indexError := by decide

/-- Observable steps of a `main_etl` run: one `readAttempt` per
`read_csv_file` call (with its outcome), one `transformStep` per entity
transformation loop entered, and one `insert` per
`insere_dados_tabela` call with the exact arguments handed to it. -/
inductive EtlEvent
  | readAttempt (file : String) (ok : Bool)
  | transformStep (table : String)
  | insert (table : String) (cols : List String) (rows : List (List PyVal))
deriving DecidableEq, Repr

/-- The load phase: call the sink for each (table, columns, rows) job in
order, recording each call, and stop returning `False` at the first
failed insert (each `if not insere_dados_tabela(...): return False`). -/
def runInserts (sink : String → List String → List (List PyVal) → Bool) :
    List (String × List String × List (List PyVal)) → List EtlEvent × Bool
  | [] => ([], true)
  | (t, cols, rows) :: rest =>
    if sink t cols rows then
      let r := runInserts sink rest
      (.insert t cols rows :: r.1, r.2)
    else ([.insert t cols rows], false)

/-- Column list of the `Repres` insert. -/
def represCols : List String :=
  ["CODREPRES", "TIPOPESS", "NOMEFAN", "COMISSAOBASE"]

/-- Column list of the `FornClien` insert. -/
def fornclienCols : List String :=
  ["CODCLIFOR", "TIPOCF", "CODREPRES", "NOMEFAN", "CIDADE", "UF",
   "CODMUNICIPIO", "TIPOPESSOA", "COBRBANC", "PRAZOPGTO"]

/-- Column list of the `Produtos` insert. -/
def produtosCols : List String :=
  ["CODPROD", "NOMEPROD", "CODFORNE", "UNIDADE", "ALIQICMS", "VALCUSTO",
   "VALVENDA", "QTDEMIN", "QTDEESTQ", "GRUPO", "CLASSEESTQ", "COMISSAO", "PESOBRUTO"]

/-- Column list of the `Pedidos` insert. -/
def pedidosCols : List String :=
  ["NUMPED", "DATAPPED", "HORAPPED", "CODCLIEN", "ES", "FINALIDNFE", "SITUACAO",
   "PESO", "PRAZOPGTO", "VALORPRODS", "VALORDESC", "VALOR", "VALBASEICMS",
   "VALICMS", "COMISSAO"]

/-- Column list of the `PedidosItem` insert. -/
def pedidositemCols : List String :=
  ["NUMPED", "NUMITEM", "CODPROD", "QTDE", "VALUNIT", "UNID", "ALIQICMS",
   "COMISSAO", "STICMS", "CFOP", "REDUCBASEICMS"]

/-- The five extraction results, one per source CSV: `read_csv_file`'s
data component, `none` when the file was missing/unreadable (the
`(None, None)` error return). -/
structure EtlSources where
  repres : Option (List (List String))
  fornclien : Option (List (List String))
  produtos : Option (List (List String))
  pedidos : Option (List (List String))
  pedidositem : Option (List (List String))

/-- `main_etl(nome_banco)` with the file system and the database
abstracted: `src` holds the five extraction results and `sink` decides
each `insere_dados_tabela` call.  Returns the event trace together with
the function's outcome (`Except` since a transform loop can raise on a
short row).  Control flow follows the source line by line: read REPRES
and build its PK set, ... , read PEDIDOSITEM, run the five transform
loops, then the five inserts, aborting with `False` at the first
missing source or failed insert. -/
def main_etl (src : EtlSources)
    (sink : String → List String → List (List PyVal) → Bool) :
    List EtlEvent × Except PyExc Bool :=
  let r1 := EtlEvent.readAttempt "DadosERPRepres.csv" src.repres.isSome
  match src.repres with
  | none => ([r1], .ok false)
  | some data_repres =>
    match get_valid_pk_setE data_repres 0 with
    | .error e => ([r1], .error e)
    | .ok valid_repres_ids =>
      let r2 := EtlEvent.readAttempt "DadosERPFornClien.csv" src.fornclien.isSome
      match src.fornclien with
      | none => ([r1, r2], .ok false)
      | some data_fornclien =>
        match get_valid_pk_setE data_fornclien 0 with
        | .error e => ([r1, r2], .error e)
        | .ok valid_fornclien_ids =>
          let r3 := EtlEvent.readAttempt "DadosERPProdutos.csv" src.produtos.isSome
          match src.produtos with
          | none => ([r1, r2, r3], .ok false)
          | some data_produtos =>
            match get_valid_pk_setE data_produtos 0 with
            | .error e => ([r1, r2, r3], .error e)
            | .ok valid_produtos_ids =>
              let r4 := EtlEvent.readAttempt "DadosERPPedidos.csv" src.pedidos.isSome
              match src.pedidos with
              | none => ([r1, r2, r3, r4], .ok false)
              | some data_pedidos =>
                match get_valid_pk_setE data_pedidos 0 with
                | .error e => ([r1, r2, r3, r4], .error e)
                | .ok valid_pedidos_ids =>
                  let r5 := EtlEvent.readAttempt "DadosERPPedidosItem.csv" src.pedidositem.isSome
                  match src.pedidositem with
                  | none => ([r1, r2, r3, r4, r5], .ok false)
                  | some data_pedidositem =>
                    let t1 := EtlEvent.transformStep "Repres"
                    match data_repres.mapM transformRepres with
                    | .error e => ([r1, r2, r3, r4, r5, t1], .error e)
                    | .ok cleaned_repres =>
                      let t2 := EtlEvent.transformStep "FornClien"
                      match data_fornclien.mapM (transformFornclien valid_repres_ids) with
                      | .error e => ([r1, r2, r3, r4, r5, t1, t2], .error e)
                      | .ok cleaned_fornclien =>
                        let t3 := EtlEvent.transformStep "Produtos"
                        match data_produtos.mapM (transformProdutos valid_fornclien_ids) with
                        | .error e => ([r1, r2, r3, r4, r5, t1, t2, t3], .error e)
                        | .ok cleaned_produtos =>
                          let t4 := EtlEvent.transformStep "Pedidos"
                          match data_pedidos.mapM (transformPedidos valid_fornclien_ids) with
                          | .error e => ([r1, r2, r3, r4, r5, t1, t2, t3, t4], .error e)
                          | .ok cleaned_pedidos =>
                            let t5 := EtlEvent.transformStep "PedidosItem"
                            match data_pedidositem.mapM
                                (transformPedidositem valid_pedidos_ids valid_produtos_ids) with
                            | .error e => ([r1, r2, r3, r4, r5, t1, t2, t3, t4, t5], .error e)
                            | .ok cleaned_pedidositem =>
                              let li := runInserts sink
                                [("Repres", represCols, cleaned_repres),
                                 ("FornClien", fornclienCols, cleaned_fornclien),
                                 ("Produtos", produtosCols, cleaned_produtos),
                                 ("Pedidos", pedidosCols, cleaned_pedidos),
                                 ("PedidosItem", pedidositemCols, cleaned_pedidositem)]
                              (r1 :: r2 :: r3 :: r4 :: r5 :: t1 :: t2 :: t3 :: t4 :: t5 :: li.1,
                               .ok li.2)

example :
    (main_etl ⟨some [["10", "PF", "Acme", "5.5"]], some [], some [], some [], some []⟩
      (fun _ _ _ => true)).2 = .ok true := by decide
example :
    (main_etl ⟨none, some [], some [], some [], some []⟩ (fun _ _ _ => true)) =
      ([.readAttempt "DadosERPRepres.csv" false], .ok false) := by decide

/-! ## Helper lemmas -/

/-- Reduction of a monadic bind on a successful `Except`. -/
theorem exBind_over_ok {α β : Type} (a : α) (f : α → Except PyExc β) :
    (Except.ok a >>= f) = f a := rfl

/-- Reduction of a monadic bind on a failed `Except`. -/
theorem exBind_over_error {α β : Type} (e : PyExc) (f : α → Except PyExc β) :
    ((Except.error e : Except PyExc α) >>= f) = .error e := rfl

/-- `pure` in the `Except` monad is `Except.ok`. -/
theorem exPure_eq {α : Type} (a : α) : (pure a : Except PyExc α) = .ok a := rfl

/-- The `int(float(...))` body raises only `ValueError` or
`OverflowError`; both are caught by `_safe_convert_to_int`. -/
theorem intOfCleaned_cases (s : String) :
    (∃ n, intOfCleaned s = .ok n) ∨ intOfCleaned s = .error .valueError ∨
      intOfCleaned s = .error .overflowError := by
  unfold intOfCleaned pyFloatOfString
  cases pyParseFloat s with
  | none => simp
  | some f => cases f <;> simp [pyIntOfFloat]

/-- The `float(...)` body raises only `ValueError`; it is caught by
`_safe_convert_to_float`. -/
theorem floatOfString_cases (s : String) :
    (∃ f, pyFloatOfString s = .ok f) ∨ pyFloatOfString s = .error .valueError := by
  unfold pyFloatOfString
  cases pyParseFloat s <;> simp

/-- `_safe_convert_to_int` never lets an exception escape: the
exception-explicit version always returns the value-level result. -/
theorem safe_convert_to_intE_eq (v : Option String) :
    safe_convert_to_intE v = .ok (safe_convert_to_int v) := by
  unfold safe_convert_to_intE safe_convert_to_int
  split
  · rcases intOfCleaned_cases (removeCommas (v.getD "")) with ⟨n, h⟩ | h | h <;> rw [h]
  · rfl

/-- `_safe_convert_to_float` never lets an exception escape. -/
theorem safe_convert_to_floatE_eq (v : Option String) :
    safe_convert_to_floatE v = .ok (safe_convert_to_float v) := by
  unfold safe_convert_to_floatE safe_convert_to_float
  split
  · rcases floatOfString_cases (removeCommas (v.getD "")) with ⟨f, h⟩ | h <;> rw [h]
  · rfl

/-- In-bounds indexing succeeds. -/
theorem pyIndex_lt {row : List String} {i : ℕ} (h : i < row.length) :
    pyIndex row i = .ok row[i] := by
  simp [pyIndex, List.getElem?_eq_getElem h]

/-- One `get_valid_pk_set` loop iteration at PK column 0 never raises:
an empty row is skipped and a non-empty row has a column 0. -/
theorem pkStep_zero_ok (acc : Finset ℤ) (row : List String) :
    ∃ v, pkStep 0 acc row = .ok v := by
  unfold pkStep
  cases row with
  | nil => exact ⟨acc, rfl⟩
  | cons a t =>
    have h0 : pyIndex (a :: t) 0 = .ok a := pyIndex_lt (by simp)
    simp only [List.isEmpty_cons, Bool.false_eq_true, if_false, h0,
      safe_convert_to_intE_eq, exBind_over_ok]
    cases hc : safe_convert_to_int (some a) with
    | none => exact ⟨acc, rfl⟩
    | some n =>
      by_cases hn : n = 0
      · subst hn; exact ⟨acc, by simp [exPure_eq]⟩
      · exact ⟨insert n acc, by simp [hn, exPure_eq]⟩

/-- `get_valid_pk_set(data, 0)` never raises. -/
theorem get_valid_pk_setE_zero_ok (data : List (List String)) :
    ∀ acc : Finset ℤ, ∃ V, data.foldlM (pkStep 0) acc = .ok V := by
  induction data with
  | nil => exact fun acc => ⟨acc, rfl⟩
  | cons row rest ih =>
    intro acc
    obtain ⟨v, hv⟩ := pkStep_zero_ok acc row
    obtain ⟨V, hV⟩ := ih v
    exact ⟨V, by simp [List.foldlM, hv, exBind_over_ok, hV]⟩

/-- Every insert event produced by the load phase corresponds to one of
its jobs. -/
theorem runInserts_mem (sink : String → List String → List (List PyVal) → Bool)
    (jobs : List (String × List String × List (List PyVal)))
    {t : String} {c : List String} {r : List (List PyVal)}
    (h : EtlEvent.insert t c r ∈ (runInserts sink jobs).1) : (t, c, r) ∈ jobs := by
  induction jobs with
  | nil => simp [runInserts] at h
  | cons j rest ih =>
    obtain ⟨tj, cj, rj⟩ := j
    by_cases hs : sink tj cj rj
    · simp only [runInserts, hs, if_pos, List.mem_cons] at h
      rcases h with h | h
      · cases h; exact List.mem_cons_self _ _
      · exact List.mem_cons_of_mem _ (ih h)
    · simp only [runInserts, hs, if_neg, Bool.false_eq_true, not_false_iff,
        List.mem_singleton] at h
      cases h; exact List.mem_cons_self _ _

/-- On a row with at least its 4 columns, the REPRES transformer
returns normally and its output is the per-column mapping. -/
theorem transformRepres_full (a0 a1 a2 a3 : String) (t : List String) :
    transformRepres (a0 :: a1 :: a2 :: a3 :: t) =
      .ok [ofOptInt (safe_convert_to_int (some a0)), strOrNone a1, strOrNone a2,
           ofOptFloat (safe_convert_to_float (some a3))] := by
  simp only [transformRepres, pyIndex, List.getElem?_cons_zero, List.getElem?_cons_succ,
    safe_convert_to_intE_eq, safe_convert_to_floatE_eq, exBind_over_ok, exPure_eq]

/-- On a row with at least its 10 columns, the FORNCLIEN transformer
returns normally and its output is the per-column mapping. -/
theorem transformFornclien_full (V : Finset ℤ) (a0 a1 a2 a3 a4 a5 a6 a7 a8 a9 : String)
    (t : List String) :
    transformFornclien V (a0 :: a1 :: a2 :: a3 :: a4 :: a5 :: a6 :: a7 :: a8 :: a9 :: t) =
      .ok [ofOptInt (safe_convert_to_int (some a0)),
           ofOptInt (safe_convert_to_int (some a1)),
           .int (cleanForeignKeyVal (some a2) V),
           strOrLit a3 "Não Informado", strOrLit a4 "Não Informado", strOrLit a5 "ND",
           optFloatOrStr (safe_convert_to_float (some a6)) "Não Informado",
           ofOptInt (safe_convert_to_int (some a7)),
           ofOptInt (safe_convert_to_int (some a8)),
           optFloatOrStr (safe_convert_to_float (some a9)) "Não Informado"] := by
  simp only [transformFornclien, pyIndex, List.getElem?_cons_zero, List.getElem?_cons_succ,
    safe_convert_to_intE_eq, safe_convert_to_floatE_eq, exBind_over_ok, exPure_eq]

/-- On a row with at least its 13 columns, the PRODUTOS transformer
returns normally and its output is the per-column mapping. -/
theorem transformProdutos_full (V : Finset ℤ)
    (a0 a1 a2 a3 a4 a5 a6 a7 a8 a9 a10 a11 a12 : String) (t : List String) :
    transformProdutos V
        (a0 :: a1 :: a2 :: a3 :: a4 :: a5 :: a6 :: a7 :: a8 :: a9 :: a10 :: a11 :: a12 :: t) =
      .ok [ofOptInt (safe_convert_to_int (some a0)), strOrNone a1,
           .int (cleanForeignKeyVal (some a2) V),
           ofOptInt (safe_convert_to_int (some a3)),
           optFloatOrStr (safe_convert_to_float (some a4)) "Não Informado",
           optFloatOrStr (safe_convert_to_float (some a5)) "Não Informado",
           optFloatOrStr (safe_convert_to_float (some a6)) "Não Informado",
           optFloatOrStr (safe_convert_to_float (some a7)) "Não Informado",
           optFloatOrStr (safe_convert_to_float (some a8)) "Não Informado",
           ofOptInt (safe_convert_to_int (some a9)), strOrLit a10 "0",
           optFloatOrStr (safe_convert_to_float (some a11)) "Não Informado",
           optFloatOrStr (safe_convert_to_float (some a12)) "Não Informado"] := by
  simp only [transformProdutos, pyIndex, List.getElem?_cons_zero, List.getElem?_cons_succ,
    safe_convert_to_intE_eq, safe_convert_to_floatE_eq, exBind_over_ok, exPure_eq]

/-- On a row with at least its 15 columns, the PEDIDOS transformer
returns normally and its output is the per-column mapping. -/
theorem transformPedidos_full (V : Finset ℤ)
    (a0 a1 a2 a3 a4 a5 a6 a7 a8 a9 a10 a11 a12 a13 a14 : String) (t : List String) :
    transformPedidos V
        (a0 :: a1 :: a2 :: a3 :: a4 :: a5 :: a6 :: a7 :: a8 :: a9 :: a10 :: a11 :: a12 ::
          a13 :: a14 :: t) =
      .ok [.int (optIntOrZ (safe_convert_to_int (some a0)) 0), strOrNone a1, strOrNone a2,
           .int (intOrZ (cleanForeignKeyVal (some a3) V) 0), strOrNone a4,
           finalidnfeVal (safe_convert_to_int (some a5)),
           .int (optIntOrZ (safe_convert_to_int (some a6)) 2),
           .float (optFloatOrF (safe_convert_to_float (some a7)) (.finite 0)),
           .int (optIntOrZ (safe_convert_to_int (some a8)) 0),
           .float (optFloatOrF (safe_convert_to_float (some a9)) (.finite 0)),
           .float (optFloatOrF (safe_convert_to_float (some a10)) (.finite 0)),
           .float (optFloatOrF (safe_convert_to_float (some a11)) (.finite 0)),
           .float (optFloatOrF (safe_convert_to_float (some a12)) (.finite 0)),
           .float (optFloatOrF (safe_convert_to_float (some a13)) (.finite 0)),
           .float (optFloatOrF (safe_convert_to_float (some a14)) (.finite 0))] := by
  simp only [transformPedidos, pyIndex, List.getElem?_cons_zero, List.getElem?_cons_succ,
    safe_convert_to_intE_eq, safe_convert_to_floatE_eq, exBind_over_ok, exPure_eq]

/-- On a row with at least its 11 columns, the PEDIDOSITEM transformer
returns normally and its output is the per-column mapping. -/
theorem transformPedidositem_full (Vp Vq : Finset ℤ)
    (a0 a1 a2 a3 a4 a5 a6 a7 a8 a9 a10 : String) (t : List String) :
    transformPedidositem Vp Vq
        (a0 :: a1 :: a2 :: a3 :: a4 :: a5 :: a6 :: a7 :: a8 :: a9 :: a10 :: t) =
      .ok [.int (cleanForeignKeyVal (some a0) Vp),
           ofOptInt (safe_convert_to_int (some a1)),
           .int (cleanForeignKeyVal (some a2) Vq),
           ofOptFloat (safe_convert_to_float (some a3)),
           ofOptFloat (safe_convert_to_float (some a4)), strOrLit a5 "UN",
           ofOptFloat (safe_convert_to_float (some a6)),
           ofOptFloat (safe_convert_to_float (some a7)),
           ofOptInt (safe_convert_to_int (some a8)),
           optFloatOrStr (safe_convert_to_float (some a9)) "5102",
           ofOptFloat (safe_convert_to_float (some a10))] := by
  simp only [transformPedidositem, pyIndex, List.getElem?_cons_zero, List.getElem?_cons_succ,
    safe_convert_to_intE_eq, safe_convert_to_floatE_eq, exBind_over_ok, exPure_eq]

/-- The first job's insert is always attempted. -/
theorem runInserts_head (sink : String → List String → List (List PyVal) → Bool)
    (t : String) (c : List String) (r : List (List PyVal)) rest :
    EtlEvent.insert t c r ∈ (runInserts sink ((t, c, r) :: rest)).1 := by
  by_cases hs : sink t c r <;>
    simp [runInserts, hs]

/-- `get_valid_pk_set(data, 0)` never raises: its loop body only indexes
column 0 of non-empty rows and the coercions never throw. -/
theorem get_valid_pk_setE_ok (data : List (List String)) :
    ∃ V, get_valid_pk_setE data 0 = .ok V :=
  get_valid_pk_setE_zero_ok data ∅

/-! ## Claims -/

/-- Claim C1, counterexample: with default `d = 7` and an empty (hence
uncoercible) foreign-key string, `clean_foreign_key` returns `0`, not
the supplied default `7` — the claim's "returns `d`" fails. -/
theorem claim_C1_counterexample :
    clean_foreign_key (some "") ∅ 7 ≠ some 7 ∧
      clean_foreign_key (some "") ∅ 7 = some 0 := by
  decide

/-- Claim C1, amended: `_tratamento_fk_com_default(s, V, d)` returns `d`
when coercion of `s` fails or yields `0`, returns `d` when the coerced
value is not a member of `V`, and otherwise returns the coerced value;
`clean_foreign_key(s, V, d)` follows the same three cases but returns
the fixed sentinel `0` in place of `d`, ignoring its default argument. -/
theorem claim_C1_amended (s : Option String) (V : Finset ℤ) (d : ℤ) :
    ((safe_convert_to_int s = none ∨ safe_convert_to_int s = some 0) →
        tratamento_fk_com_default s V d = d ∧ clean_foreign_key s V d = some 0) ∧
    (∀ n, safe_convert_to_int s = some n → n ≠ 0 → n ∉ V →
        tratamento_fk_com_default s V d = d ∧ clean_foreign_key s V d = some 0) ∧
    (∀ n, safe_convert_to_int s = some n → n ≠ 0 → n ∈ V →
        tratamento_fk_com_default s V d = n ∧ clean_foreign_key s V d = some n) := by
  unfold tratamento_fk_com_default clean_foreign_key
  refine ⟨fun h => ?_, fun n hn hn0 hmem => ?_, fun n hn hn0 hmem => ?_⟩
  · rcases h with h | h <;> rw [h] <;> simp
  · rw [hn]; simp [hn0, hmem]
  · rw [hn]; simp [hn0, hmem]

/-- Claim C1, witness: the amended theorem applied at
`s = "2"`, `V = {2, 9}`, `d = 7`. -/
theorem claim_C1_witness :
    tratamento_fk_com_default (some "2") {2, 9} 7 = 2 ∧
      clean_foreign_key (some "2") {2, 9} 7 = some 2 :=
  (claim_C1_amended (some "2") {2, 9} 7).2.2 2 (by decide) (by decide) (by decide)

/-- Claim C2, failing evaluation: on the dataset with the single row
`["-1"]`, `get_valid_pk_set` returns the set `{-1}` — it admits the
negative key `-1`, because the Python truthiness test `if pk_int:` only
excludes `None` and `0`.  This contradicts both the spec and the
function's own inline comment (`adiciona apenas se for um int válido
e > 0`). -/
theorem claim_C2_failing :
    get_valid_pk_setE [["-1"]] 0 = .ok {-1} ∧ (-1 : ℤ) < 0 := by
  decide

/-- Claim C3: with default `0`, `clean_foreign_key` always returns `0`
or a member of `V`, and the spec's four examples evaluate as stated. -/
theorem claim_C3 :
    (∀ (s : Option String) (V : Finset ℤ),
        clean_foreign_key s V 0 = some 0 ∨ ∃ n ∈ V, clean_foreign_key s V 0 = some n) ∧
    clean_foreign_key (some "0") {1, 2, 3} 0 = some 0 ∧
    clean_foreign_key (some "5") {1, 2, 3} 0 = some 0 ∧
    clean_foreign_key (some "2") {1, 2, 3} 0 = some 2 ∧
    clean_foreign_key (some "") {1, 2, 3} 0 = some 0 := by
  refine ⟨fun s V => ?_, by decide, by decide, by decide, by decide⟩
  unfold clean_foreign_key
  cases h : safe_convert_to_int s with
  | none => exact Or.inl rfl
  | some n =>
    by_cases hn : n = 0
    · exact Or.inl (by simp [hn])
    · by_cases hmem : n ∈ V
      · exact Or.inr ⟨n, hmem, by simp [hn, hmem]⟩
      · exact Or.inl (by simp [hn, hmem])

/-- Claim C3, witness: the universal part applied at a concrete dangling
reference. -/
theorem claim_C3_witness :
    clean_foreign_key (some "9") {1} 0 = some 0 ∨
      ∃ n ∈ ({1} : Finset ℤ), clean_foreign_key (some "9") {1} 0 = some n :=
  claim_C3.1 (some "9") {1}

/-- Claim C5: the spec's coercion examples (`mkRat 2469 2` is
`1234.50`). -/
theorem claim_C5 :
    safe_convert_to_int (some "553,465") = some 553465 ∧
    safe_convert_to_int (some "4.0") = some 4 ∧
    safe_convert_to_int (some "abc") = none ∧
    safe_convert_to_int (some "") = none ∧
    safe_convert_to_float (some "1,234.50") = some (.finite (mkRat 2469 2)) ∧
    safe_convert_to_float none = none ∧
    safe_convert_to_float (some "") = none := by
  decide

/-- Claim C6: on every input (Python `None` included), both coercion
functions return normally — the exception-explicit embeddings always
produce `.ok` of the value-level result, which is by type either a
typed value or the absent marker `none`. -/
theorem claim_C6 (v : Option String) :
    safe_convert_to_intE v = .ok (safe_convert_to_int v) ∧
      safe_convert_to_floatE v = .ok (safe_convert_to_float v) :=
  ⟨safe_convert_to_intE_eq v, safe_convert_to_floatE_eq v⟩

/-- Claim C6, witness: the theorem applied at a concrete input. -/
theorem claim_C6_witness :
    safe_convert_to_intE (some "4.0") = .ok (safe_convert_to_int (some "4.0")) ∧
      safe_convert_to_floatE (some "4.0") = .ok (safe_convert_to_float (some "4.0")) :=
  claim_C6 (some "4.0")

/-- Claim C9: `clean_foreign_key(s, V, d)` coincides with
`_tratamento_fk_com_default(s, V, 0)`, does not depend on `d`, and never
returns `None` despite its `Optional[int]` annotation. -/
theorem claim_C9 (s : Option String) (V : Finset ℤ) (d : ℤ) :
    clean_foreign_key s V d = some (tratamento_fk_com_default s V 0) ∧
    clean_foreign_key s V d = clean_foreign_key s V 0 ∧
    clean_foreign_key s V d ≠ none := by
  unfold clean_foreign_key tratamento_fk_com_default
  cases safe_convert_to_int s with
  | none => exact ⟨rfl, rfl, by simp⟩
  | some n =>
    by_cases hn : n = 0
    · simp [hn]
    · by_cases hmem : n ∈ V <;> simp [hn, hmem]

/-- Claim C9, witness: the theorem applied at a concrete non-zero
default. -/
theorem claim_C9_witness :
    clean_foreign_key (some "3") {3} 5 = some (tratamento_fk_com_default (some "3") {3} 0) ∧
    clean_foreign_key (some "3") {3} 5 = clean_foreign_key (some "3") {3} 0 ∧
    clean_foreign_key (some "3") {3} 5 ≠ none :=
  claim_C9 (some "3") {3} 5

/-- Claim C10: a Client/Supplier row with an empty CODMUNICIPIO column
and a Product row with empty cost/price/weight columns transform to
records carrying the text `"Não Informado"` in numeric field
positions. -/
theorem claim_C10 :
    transformFornclien ∅ ["1", "1", "5", "Nome", "Cidade", "SP", "", "2", "0", "30"] =
      .ok [.int 1, .int 1, .int 0, .str "Nome", .str "Cidade", .str "SP",
           .str "Não Informado", .int 2, .int 0, .float (.finite 30)] ∧
    transformProdutos ∅ ["7", "Prod", "", "1", "", "", "", "", "", "1", "A", "", ""] =
      .ok [.int 7, .str "Prod", .int 0, .int 1, .str "Não Informado",
           .str "Não Informado", .str "Não Informado", .str "Não Informado",
           .str "Não Informado", .int 1, .str "A", .str "Não Informado",
           .str "Não Informado"] := by
  decide

/-- Claim C4, counterexample: on the empty row (a blank CSV line) the
REPRES and PEDIDOSITEM transformers raise `IndexError` instead of
producing a record. -/
theorem claim_C4_counterexample :
    transformRepres [] = .error .indexError ∧
      transformPedidositem ∅ ∅ [] = .error .indexError := by
  decide

/-- Claim C4, amended: each of the five transformers produces an output
record without raising on every raw row that has at least the entity's
expected column count (4, 10, 13, 15 and 11 respectively); on shorter
rows it raises `IndexError`. -/
theorem claim_C4_amended :
    (∀ row : List String, 4 ≤ row.length →
        ∃ rec, transformRepres row = .ok rec) ∧
    (∀ (V : Finset ℤ) (row : List String), 10 ≤ row.length →
        ∃ rec, transformFornclien V row = .ok rec) ∧
    (∀ (V : Finset ℤ) (row : List String), 13 ≤ row.length →
        ∃ rec, transformProdutos V row = .ok rec) ∧
    (∀ (V : Finset ℤ) (row : List String), 15 ≤ row.length →
        ∃ rec, transformPedidos V row = .ok rec) ∧
    (∀ (Vp Vq : Finset ℤ) (row : List String), 11 ≤ row.length →
        ∃ rec, transformPedidositem Vp Vq row = .ok rec) := by
  refine ⟨fun row h => ?_, fun V row h => ?_, fun V row h => ?_, fun V row h => ?_,
    fun Vp Vq row h => ?_⟩
  · rcases row with _ | ⟨a0, _ | ⟨a1, _ | ⟨a2, _ | ⟨a3, t⟩⟩⟩⟩
    all_goals try (simp only [List.length_cons, List.length_nil] at h; omega)
    exact ⟨_, transformRepres_full a0 a1 a2 a3 t⟩
  · rcases row with _ | ⟨a0, _ | ⟨a1, _ | ⟨a2, _ | ⟨a3, _ | ⟨a4, _ | ⟨a5, _ | ⟨a6,
      _ | ⟨a7, _ | ⟨a8, _ | ⟨a9, t⟩⟩⟩⟩⟩⟩⟩⟩⟩⟩
    all_goals try (simp only [List.length_cons, List.length_nil] at h; omega)
    exact ⟨_, transformFornclien_full V a0 a1 a2 a3 a4 a5 a6 a7 a8 a9 t⟩
  · rcases row with _ | ⟨a0, _ | ⟨a1, _ | ⟨a2, _ | ⟨a3, _ | ⟨a4, _ | ⟨a5, _ | ⟨a6,
      _ | ⟨a7, _ | ⟨a8, _ | ⟨a9, _ | ⟨a10, _ | ⟨a11, _ | ⟨a12, t⟩⟩⟩⟩⟩⟩⟩⟩⟩⟩⟩⟩⟩
    all_goals try (simp only [List.length_cons, List.length_nil] at h; omega)
    exact ⟨_, transformProdutos_full V a0 a1 a2 a3 a4 a5 a6 a7 a8 a9 a10 a11 a12 t⟩
  · rcases row with _ | ⟨a0, _ | ⟨a1, _ | ⟨a2, _ | ⟨a3, _ | ⟨a4, _ | ⟨a5, _ | ⟨a6,
      _ | ⟨a7, _ | ⟨a8, _ | ⟨a9, _ | ⟨a10, _ | ⟨a11, _ | ⟨a12, _ | ⟨a13,
      _ | ⟨a14, t⟩⟩⟩⟩⟩⟩⟩⟩⟩⟩⟩⟩⟩⟩⟩
    all_goals try (simp only [List.length_cons, List.length_nil] at h; omega)
    exact ⟨_, transformPedidos_full V a0 a1 a2 a3 a4 a5 a6 a7 a8 a9 a10 a11 a12 a13 a14 t⟩
  · rcases row with _ | ⟨a0, _ | ⟨a1, _ | ⟨a2, _ | ⟨a3, _ | ⟨a4, _ | ⟨a5, _ | ⟨a6,
      _ | ⟨a7, _ | ⟨a8, _ | ⟨a9, _ | ⟨a10, t⟩⟩⟩⟩⟩⟩⟩⟩⟩⟩⟩
    all_goals try (simp only [List.length_cons, List.length_nil] at h; omega)
    exact ⟨_, transformPedidositem_full Vp Vq a0 a1 a2 a3 a4 a5 a6 a7 a8 a9 a10 t⟩

/-- Claim C4, witness: the amended theorem applied to one concrete
full-width row per transformer. -/
theorem claim_C4_witness :
    (∃ rec, transformRepres ["1", "PF", "A", "2.5"] = .ok rec) ∧
    (∃ rec, transformFornclien ∅
        ["1", "1", "1", "a", "b", "SP", "1", "1", "0", "1"] = .ok rec) ∧
    (∃ rec, transformProdutos ∅
        ["1", "a", "1", "1", "1", "1", "1", "1", "1", "1", "A", "1", "1"] = .ok rec) ∧
    (∃ rec, transformPedidos ∅ (List.replicate 15 "1") = .ok rec) ∧
    (∃ rec, transformPedidositem ∅ ∅ (List.replicate 11 "1") = .ok rec) :=
  ⟨claim_C4_amended.1 _ (by decide), claim_C4_amended.2.1 ∅ _ (by decide),
   claim_C4_amended.2.2.1 ∅ _ (by decide), claim_C4_amended.2.2.2.1 ∅ _ (by decide),
   claim_C4_amended.2.2.2.2 ∅ ∅ _ (by decide)⟩

/-- Claim C7: (i) if any of the five extraction results is the error
marker, `main_etl` returns `False` and its trace contains no insert;
(ii) whenever a transform or load step appears in the trace, the trace
begins with the five successful read attempts — all five extractions
happened before any transform or load step ran. -/
theorem claim_C7 :
    (∀ (src : EtlSources) (sink : String → List String → List (List PyVal) → Bool),
        (src.repres = none ∨ src.fornclien = none ∨ src.produtos = none ∨
            src.pedidos = none ∨ src.pedidositem = none) →
        (main_etl src sink).2 = .ok false ∧
          ∀ t c r, EtlEvent.insert t c r ∉ (main_etl src sink).1) ∧
    (∀ (src : EtlSources) (sink : String → List String → List (List PyVal) → Bool)
        (ev : EtlEvent), ev ∈ (main_etl src sink).1 →
        ((∃ tb, ev = EtlEvent.transformStep tb) ∨ ∃ t c r, ev = EtlEvent.insert t c r) →
        (main_etl src sink).1.take 5 =
          [.readAttempt "DadosERPRepres.csv" true, .readAttempt "DadosERPFornClien.csv" true,
           .readAttempt "DadosERPProdutos.csv" true, .readAttempt "DadosERPPedidos.csv" true,
           .readAttempt "DadosERPPedidosItem.csv" true]) := by
  constructor
  · rintro ⟨s1, s2, s3, s4, s5⟩ sink h
    cases s1 with
    | none => exact ⟨rfl, fun t c r => by simp [main_etl]⟩
    | some d1 =>
      obtain ⟨V1, hV1⟩ := get_valid_pk_setE_ok d1
      cases s2 with
      | none => refine ⟨?_, fun t c r => ?_⟩ <;> simp [main_etl, hV1]
      | some d2 =>
        obtain ⟨V2, hV2⟩ := get_valid_pk_setE_ok d2
        cases s3 with
        | none => refine ⟨?_, fun t c r => ?_⟩ <;> simp [main_etl, hV1, hV2]
        | some d3 =>
          obtain ⟨V3, hV3⟩ := get_valid_pk_setE_ok d3
          cases s4 with
          | none => refine ⟨?_, fun t c r => ?_⟩ <;> simp [main_etl, hV1, hV2, hV3]
          | some d4 =>
            obtain ⟨V4, hV4⟩ := get_valid_pk_setE_ok d4
            cases s5 with
            | none =>
              refine ⟨?_, fun t c r => ?_⟩ <;> simp [main_etl, hV1, hV2, hV3, hV4]
            | some d5 => rcases h with h | h | h | h | h <;> simp at h
  · rintro ⟨s1, s2, s3, s4, s5⟩ sink ev hmem hkind
    cases s1 with
    | none =>
      rcases hkind with ⟨tb, rfl⟩ | ⟨t, c, r, rfl⟩ <;> simp [main_etl] at hmem
    | some d1 =>
      obtain ⟨V1, hV1⟩ := get_valid_pk_setE_ok d1
      cases s2 with
      | none =>
        rcases hkind with ⟨tb, rfl⟩ | ⟨t, c, r, rfl⟩ <;> simp [main_etl, hV1] at hmem
      | some d2 =>
        obtain ⟨V2, hV2⟩ := get_valid_pk_setE_ok d2
        cases s3 with
        | none =>
          rcases hkind with ⟨tb, rfl⟩ | ⟨t, c, r, rfl⟩ <;>
            simp [main_etl, hV1, hV2] at hmem
        | some d3 =>
          obtain ⟨V3, hV3⟩ := get_valid_pk_setE_ok d3
          cases s4 with
          | none =>
            rcases hkind with ⟨tb, rfl⟩ | ⟨t, c, r, rfl⟩ <;>
              simp [main_etl, hV1, hV2, hV3] at hmem
          | some d4 =>
            obtain ⟨V4, hV4⟩ := get_valid_pk_setE_ok d4
            cases s5 with
            | none =>
              rcases hkind with ⟨tb, rfl⟩ | ⟨t, c, r, rfl⟩ <;>
                simp [main_etl, hV1, hV2, hV3, hV4] at hmem
            | some d5 =>
              simp only [main_etl, hV1, hV2, hV3, hV4]
              cases d1.mapM transformRepres with
              | error e => simp [List.take]
              | ok c1 =>
                cases d2.mapM (transformFornclien V1) with
                | error e => simp [List.take]
                | ok c2 =>
                  cases d3.mapM (transformProdutos V2) with
                  | error e => simp [List.take]
                  | ok c3 =>
                    cases d4.mapM (transformPedidos V2) with
                    | error e => simp [List.take]
                    | ok c4 =>
                      cases d5.mapM (transformPedidositem V4 V3) with
                      | error e => simp [List.take]
                      | ok c5 => simp [List.take]

/-- The all-true load sink used by concrete witnesses. -/
def sinkTrue : String → List String → List (List PyVal) → Bool :=
  fun _ _ _ => true

/-- A source assignment with the REPRES extraction failed. -/
def srcMissingC7 : EtlSources :=
  ⟨none, some [], some [], some [], some []⟩

/-- A source assignment with all five extractions succeeding on empty
datasets. -/
def srcFullC7 : EtlSources :=
  ⟨some [], some [], some [], some [], some []⟩

/-- Claim C7, witness: both parts applied at concrete sources and the
all-true sink. -/
theorem claim_C7_witness :
    ((main_etl srcMissingC7 sinkTrue).2 = .ok false ∧
      ∀ t c r, EtlEvent.insert t c r ∉ (main_etl srcMissingC7 sinkTrue).1) ∧
    (main_etl srcFullC7 sinkTrue).1.take 5 =
      [.readAttempt "DadosERPRepres.csv" true, .readAttempt "DadosERPFornClien.csv" true,
       .readAttempt "DadosERPProdutos.csv" true, .readAttempt "DadosERPPedidos.csv" true,
       .readAttempt "DadosERPPedidosItem.csv" true] :=
  ⟨claim_C7.1 srcMissingC7 sinkTrue (Or.inl rfl),
   claim_C7.2 srcFullC7 sinkTrue (EtlEvent.insert "Repres" represCols []) (by decide)
     (Or.inr ⟨"Repres", represCols, [], rfl⟩)⟩

/-- The sources of the Claim C8 scenario: a Representative dataset with
the single raw row `("10","PF","Acme","5.5")`, the other four datasets
present but empty. -/
def srcC8 : EtlSources :=
  ⟨some [["10", "PF", "Acme", "5.5"]], some [], some [], some [], some []⟩

/-- The record the C8 row transforms to: primary key `10`, person type
`"PF"`, name `"Acme"`, base commission `5.5` (`mkRat 11 2`). -/
def repRowC8 : List PyVal :=
  [.int 10, .str "PF", .str "Acme", .float (.finite (mkRat 11 2))]

/-- The five insert jobs of the C8 run. -/
def jobsC8 : List (String × List String × List (List PyVal)) :=
  [("Repres", represCols, [repRowC8]), ("FornClien", fornclienCols, []),
   ("Produtos", produtosCols, []), ("Pedidos", pedidosCols, []),
   ("PedidosItem", pedidositemCols, [])]

/-- The event trace of the C8 run up to the load phase, by
computation. -/
theorem mainC8_events (sink : String → List String → List (List PyVal) → Bool) :
    (main_etl srcC8 sink).1 =
      .readAttempt "DadosERPRepres.csv" true :: .readAttempt "DadosERPFornClien.csv" true ::
      .readAttempt "DadosERPProdutos.csv" true :: .readAttempt "DadosERPPedidos.csv" true ::
      .readAttempt "DadosERPPedidosItem.csv" true :: .transformStep "Repres" ::
      .transformStep "FornClien" :: .transformStep "Produtos" :: .transformStep "Pedidos" ::
      .transformStep "PedidosItem" :: (runInserts sink jobsC8).1 := rfl

/-- Claim C8: the Representative transform of the one-row dataset yields
exactly one record `(10, "PF", "Acme", 5.5)`, that one-record list is
handed to the load sink for the `Repres` table, and no other row list is
ever handed to the sink for that table. -/
theorem claim_C8 (sink : String → List String → List (List PyVal) → Bool) :
    [["10", "PF", "Acme", "5.5"]].mapM transformRepres = .ok [repRowC8] ∧
    EtlEvent.insert "Repres" represCols [repRowC8] ∈ (main_etl srcC8 sink).1 ∧
    ∀ c r, EtlEvent.insert "Repres" c r ∈ (main_etl srcC8 sink).1 →
      c = represCols ∧ r = [repRowC8] := by
  refine ⟨rfl, ?_, ?_⟩
  · rw [mainC8_events]
    exact List.mem_cons_of_mem _ (List.mem_cons_of_mem _ (List.mem_cons_of_mem _
      (List.mem_cons_of_mem _ (List.mem_cons_of_mem _ (List.mem_cons_of_mem _
      (List.mem_cons_of_mem _ (List.mem_cons_of_mem _ (List.mem_cons_of_mem _
      (List.mem_cons_of_mem _
        (runInserts_head sink "Repres" represCols [repRowC8] _))))))))))
  · intro c r hmem
    rw [mainC8_events] at hmem
    simp only [List.mem_cons] at hmem
    rcases hmem with h | h | h | h | h | h | h | h | h | h | h
    · exact absurd h (by simp)
    · exact absurd h (by simp)
    · exact absurd h (by simp)
    · exact absurd h (by simp)
    · exact absurd h (by simp)
    · exact absurd h (by simp)
    · exact absurd h (by simp)
    · exact absurd h (by simp)
    · exact absurd h (by simp)
    · exact absurd h (by simp)
    · have hj := runInserts_mem sink jobsC8 h
      simp only [jobsC8, List.mem_cons, List.not_mem_nil, or_false,
        Prod.mk.injEq] at hj
      rcases hj with ⟨_, hc, hr⟩ | ⟨h1, _⟩ | ⟨h1, _⟩ | ⟨h1, _⟩ | ⟨h1, _⟩
      · exact ⟨hc, hr⟩
      · exact absurd h1 (by decide)
      · exact absurd h1 (by decide)
      · exact absurd h1 (by decide)
      · exact absurd h1 (by decide)

/-- Claim C8, witness: the theorem applied at the all-true sink, with
its uniqueness part discharged at the membership it itself provides. -/
theorem claim_C8_witness :
    EtlEvent.insert "Repres" represCols [repRowC8] ∈ (main_etl srcC8 sinkTrue).1 ∧
      (represCols = represCols ∧ [repRowC8] = [repRowC8]) :=
  ⟨(claim_C8 sinkTrue).2.1,
   (claim_C8 sinkTrue).2.2 represCols [repRowC8] (claim_C8 sinkTrue).2.1⟩

end EtlSgbd
